import Mathlib

/-!
Verification of the electrical-installation sizing engine
(`src/services/electricalLogic.ts`).

Modelling conventions for the shallow embedding:

* JavaScript numbers are modelled as exact rationals (`ℚ`); the
  arithmetic of the engine is plain field arithmetic on finite values.
* `Math.sqrt(3)` is modelled by `sqrt3`, the exact rational value of the
  IEEE-754 double that `Math.sqrt(3)` returns.
* JavaScript object lookups keyed by numbers/strings
  (`TEMPERATURE_FACTORS[temp]`, `cable.capacity[method]`) are modelled by
  association-list lookups implemented as equality-test chains; the
  `|| default` fallbacks of the source apply to tables whose stored
  values are all non-zero (truthy), so `Option.getD` is a faithful model.
* The `while` loop of the voltage-drop correction is modelled by a
  fuel-indexed structural recursion; the guard `index < table.length - 1`
  bounds the number of iterations by `CABLE_TABLE.length`, so the fuel
  `CABLE_TABLE.length` used by `finalIdx` is never exhausted.
* Diagnostic notes are modelled as tags (the source builds interpolated
  Portuguese strings); the BOM is modelled by its five estimated prices.
  The SPDA calculator and the UI/server layers are not modelled: no claim
  concerns them.
* Division by zero: `ℚ` sets `x / 0 = 0` where IEEE arithmetic produces a
  non-finite value.  `estimateShortCircuitChecked` makes the only such
  division explicit, returning `none` exactly where the JS division has a
  zero divisor (yielding `Infinity` for a positive dividend).
-/

/-- Cable record of `CABLE_TABLE`: cross-section (mm²), ampacity by
installation-method code (A), linear resistance (Ω/km). -/
structure CableData where
  «section» : ℚ
  capacity : List (String × ℚ)
  resistance : ℚ
deriving DecidableEq, Repr

/-- The static cable table of the source, ascending by section. -/
def CABLE_TABLE : List CableData :=
  [ { «section» := 1.5, capacity := [("B1", 17.5), ("B2", 16.5), ("C", 19.5)], resistance := 12.1 },
    { «section» := 2.5, capacity := [("B1", 24), ("B2", 23), ("C", 27)], resistance := 7.41 },
    { «section» := 4, capacity := [("B1", 32), ("B2", 30), ("C", 36)], resistance := 4.61 },
    { «section» := 6, capacity := [("B1", 41), ("B2", 38), ("C", 46)], resistance := 3.08 },
    { «section» := 10, capacity := [("B1", 57), ("B2", 52), ("C", 63)], resistance := 1.83 },
    { «section» := 16, capacity := [("B1", 76), ("B2", 69), ("C", 85)], resistance := 1.15 },
    { «section» := 25, capacity := [("B1", 101), ("B2", 90), ("C", 112)], resistance := 0.727 },
    { «section» := 35, capacity := [("B1", 125), ("B2", 111), ("C", 138)], resistance := 0.524 },
    { «section» := 50, capacity := [("B1", 151), ("B2", 133), ("C", 168)], resistance := 0.387 },
    { «section» := 70, capacity := [("B1", 192), ("B2", 168), ("C", 213)], resistance := 0.268 },
    { «section» := 95, capacity := [("B1", 232), ("B2", 201), ("C", 258)], resistance := 0.193 },
    { «section» := 120, capacity := [("B1", 269), ("B2", 232), ("C", 299)], resistance := 0.153 } ]

/-- Association-list lookup with rational keys, modelling a JS object
lookup keyed by numbers (first matching key wins; keys are distinct). -/
def lookupQ : List (ℚ × ℚ) → ℚ → Option ℚ
  | [], _ => none
  | (k, v) :: rest, x => if x = k then some v else lookupQ rest x

/-- Association-list lookup with string keys, modelling a JS object
lookup keyed by strings. -/
def lookupStr : List (String × ℚ) → String → Option ℚ
  | [], _ => none
  | (k, v) :: rest, x => if x = k then some v else lookupStr rest x

/-- Ambient-temperature derating table. -/
def TEMPERATURE_FACTORS : List (ℚ × ℚ) :=
  [(10, 1.22), (15, 1.17), (20, 1.12), (25, 1.06), (30, 1.00),
   (35, 0.94), (40, 0.87), (45, 0.79), (50, 0.71)]

/-- Grouped-circuits derating table. -/
def GROUPING_FACTORS : List (ℚ × ℚ) :=
  [(1, 1.00), (2, 0.80), (3, 0.70), (4, 0.65), (5, 0.60),
   (6, 0.57), (7, 0.54), (8, 0.52), (9, 0.50)]

/-- Standard breaker ratings, ascending. -/
def BREAKER_RATINGS : List ℚ := [6, 10, 13, 16, 20, 25, 32, 40, 50, 63, 70, 80, 100, 125]

/-- Exact rational value of the IEEE-754 double `Math.sqrt(3)`. -/
def sqrt3 : ℚ := 3900231685776981 / 2251799813685248

inductive SystemType where
  | monofasico | bifasico | trifasico
deriving DecidableEq, Repr

inductive LoadType where
  | iluminacao | tomadas | motor | alimentador
deriving DecidableEq, Repr

inductive Material where
  | cobre | aluminio
deriving DecidableEq, Repr

inductive Insulation where
  | PVC | EPR
deriving DecidableEq, Repr

inductive BreakerCurve where
  | B | C | D
deriving DecidableEq, Repr

/-- Input record of `calculateElectrical`. -/
structure CalcInput where
  systemType : SystemType
  voltage : ℚ
  power : ℚ
  powerFactor : ℚ
  loadType : LoadType
  length : ℚ
  method : String
  temp : ℚ
  grouping : ℚ
  material : Material
  insulation : Insulation
  breakerCurve : BreakerCurve
  breakerIcn : ℚ
  breakerRating : ℚ
deriving DecidableEq, Repr

/-- Diagnostic-note tags; the source pushes interpolated strings under
exactly these conditions, in this order. -/
inductive Note where
  | vdExceedsLimit
  | breakerAboveIz
  | breakerBelowIb
  | icnShortfall
  | curveMotorB
  | curveIluminacaoD
  | curveTomadasB
  | highCurrent
deriving DecidableEq, Repr

/-- Result record of `calculateElectrical` (notes as tags, BOM by its
five estimated prices). -/
structure CalcResult where
  current : ℚ
  cableSection : ℚ
  neutralSection : ℚ
  earthSection : ℚ
  conduitSize : String
  breakerRating : ℚ
  breakerCurve : BreakerCurve
  breakerIcn : ℚ
  voltageDrop : ℚ
  voltageDropPercent : ℚ
  shortCircuitCurrent : ℚ
  isConform : Bool
  isIcnConform : Bool
  izCorrected : ℚ
  notes : List Note
  bomPrices : List ℚ
deriving DecidableEq, Repr

/-- Step 1 of the engine: design current `Ib`. -/
def designCurrent (i : CalcInput) : ℚ :=
  if i.systemType = SystemType.trifasico then
    i.power / (sqrt3 * i.voltage * i.powerFactor)
  else
    i.power / (i.voltage * i.powerFactor)

/-- Temperature factor `ft`: `TEMPERATURE_FACTORS[temp] || 1.0` (every
stored factor is non-zero, so `||` fires only on a missing key). -/
def tempFactor (t : ℚ) : ℚ := (lookupQ TEMPERATURE_FACTORS t).getD 1

/-- Grouping factor `fg`: `GROUPING_FACTORS[grouping] || 1.0`. -/
def groupingFactor (g : ℚ) : ℚ := (lookupQ GROUPING_FACTORS g).getD 1

/-- Step 2: combined derating factor `fTotal = ft * fg * fInsulation * fMaterial`. -/
def fTotal (i : CalcInput) : ℚ :=
  tempFactor i.temp * groupingFactor i.grouping *
    (if i.insulation = Insulation.EPR then 1.25 else 1) *
    (if i.material = Material.aluminio then 0.78 else 1)

/-- Capacity of a cable for a method code:
`cable.capacity[method] || cable.capacity['B1']` (stored capacities are
non-zero; every table entry has a `B1` key). -/
def capacityFor (c : CableData) (m : String) : ℚ :=
  match lookupStr c.capacity m with
  | some v => v
  | none => (lookupStr c.capacity "B1").getD 0

/-- Corrected ampacity `Iz` of a cable: `getIz` of the source. -/
def getIz (i : CalcInput) (c : CableData) : ℚ := capacityFor c i.method * fTotal i

/-- Cable of the table at an index; out-of-range indices give the last
entry (the loop guard keeps indices below `CABLE_TABLE.length`, and this
default also makes index-based reasoning uniform). -/
def cableAt (idx : ℕ) : CableData :=
  CABLE_TABLE.getD idx (CABLE_TABLE.getLast (by simp [CABLE_TABLE]))

/-- Index of the cable chosen by `findCable(breaker)`: first table entry
whose corrected ampacity reaches the proposed breaker rating, else the
last entry (`List.findIdx` returns the length when nothing matches). -/
def findCableIdx (i : CalcInput) : ℕ :=
  min (CABLE_TABLE.findIdx fun c => decide (i.breakerRating ≤ getIz i c))
    (CABLE_TABLE.length - 1)

/-- Conductor resistance used for the voltage drop: `R *= 1.6` for aluminum. -/
def resistanceUsed (i : CalcInput) (c : CableData) : ℚ :=
  c.resistance * (if i.material = Material.aluminio then 1.6 else 1)

/-- Step 4: voltage drop `dV` of `calculateVD`. -/
def dV (i : CalcInput) (c : CableData) : ℚ :=
  if i.systemType = SystemType.trifasico then
    sqrt3 * i.length * designCurrent i * resistanceUsed i c / 1000
  else
    2 * i.length * designCurrent i * resistanceUsed i c / 1000

/-- Percent voltage drop `dVPercent` of `calculateVD`. -/
def dVPercent (i : CalcInput) (c : CableData) : ℚ := dV i c / i.voltage * 100

/-- Step 5: voltage-drop limit, 7% for feeders and 4% otherwise. -/
def vdLimit (lt : LoadType) : ℚ := if lt = LoadType.alimentador then 7 else 4

/-- The `while` upgrade loop on table indices, with explicit fuel: while
the percent drop of the current cable exceeds the limit and a larger
section remains, step to the next section. -/
def vdLoop (i : CalcInput) : ℕ → ℕ → ℕ
  | 0, idx => idx
  | fuel + 1, idx =>
    if vdLimit i.loadType < dVPercent i (cableAt idx) ∧ idx < CABLE_TABLE.length - 1 then
      vdLoop i fuel (idx + 1)
    else idx

/-- Index of the finally selected cable (ampacity search, then
voltage-drop upgrades). -/
def finalIdx (i : CalcInput) : ℕ := vdLoop i CABLE_TABLE.length (findCableIdx i)

/-- The finally selected cable. -/
def selectedCable (i : CalcInput) : CableData := cableAt (finalIdx i)

/-- Step 6: neutral sizing (halved above 25 mm² on three-phase, floored
at 16 mm²). -/
def neutralSection (i : CalcInput) (c : CableData) : ℚ :=
  if i.systemType = SystemType.trifasico ∧ 25 < c.«section» then
    (if c.«section» / 2 < 16 then 16 else c.«section» / 2)
  else c.«section»

/-- Step 6: earth sizing (16 mm² for sections in (16, 35], halved above
35 mm², else equal to the phase section). -/
def earthSection (c : CableData) : ℚ :=
  if 16 < c.«section» ∧ c.«section» ≤ 35 then 16
  else if 35 < c.«section» then c.«section» / 2
  else c.«section»

/-- Number of phase conductors the conduit computation multiplies by:
3 for three-phase, 2 otherwise. -/
def phaseCondCount (st : SystemType) : ℚ :=
  if st = SystemType.trifasico then 3 else 2

/-- Step 7: total conductor cross-section used for conduit sizing. -/
def totalConductorArea (i : CalcInput) (c : CableData) : ℚ :=
  c.«section» * phaseCondCount i.systemType + neutralSection i c + earthSection c

/-- Step 7: map a total area through the ascending thresholds
150/300/500/800 to a trade size (cascade of reassignments in the source). -/
def conduitOf (a : ℚ) : String :=
  let c0 := "3/4\""
  let c1 := if 150 < a then "1\"" else c0
  let c2 := if 300 < a then "1 1/4\"" else c1
  let c3 := if 500 < a then "1 1/2\"" else c2
  if 800 < a then "2\"" else c3

/-- Table resistance for a section: `CABLE_TABLE.find(...)?.resistance || 1`
(stored resistances are non-zero, so `||` fires only when the section is
absent). -/
def resistanceOf (s : ℚ) : ℚ :=
  ((CABLE_TABLE.find? fun c => decide (c.«section» = s)).map CableData.resistance).getD 1

/-- The divisor of `estimateShortCircuit`: table resistance scaled by
`length / 1000`. -/
def scaledResistance (length s : ℚ) : ℚ := resistanceOf s * (length / 1000)

/-- Short-circuit estimator of the source.  In `ℚ`, division by a zero
`scaledResistance` yields `0`; `estimateShortCircuitChecked` marks that
case explicitly. -/
def estimateShortCircuit (voltage length s : ℚ) : ℚ :=
  voltage / scaledResistance length s

/-- Guarded reading of the same division: `none` exactly where the JS
division has a zero divisor and produces a non-finite value (`Infinity`
for positive voltage) instead of a finite current. -/
def estimateShortCircuitChecked (voltage length s : ℚ) : Option ℚ :=
  if scaledResistance length s = 0 then none
  else some (voltage / scaledResistance length s)

/-- Step 8: estimated short-circuit current at the final cable. -/
def shortCircuitCurrent (i : CalcInput) : ℚ :=
  estimateShortCircuit i.voltage i.length (selectedCable i).«section»

/-- Interrupting-capacity conformity: `breakerIcn * 1000 >= Isc`. -/
def isIcnConformB (i : CalcInput) : Bool :=
  decide (shortCircuitCurrent i ≤ i.breakerIcn * 1000)

/-- The `isConform` flag of the source:
`vd.dVPercent <= limit && breaker <= Iz && isIcnConform`. -/
def isConformB (i : CalcInput) : Bool :=
  decide (dVPercent i (selectedCable i) ≤ vdLimit i.loadType) &&
    decide (i.breakerRating ≤ getIz i (selectedCable i)) &&
    isIcnConformB i

/-- Step 10: diagnostic notes, as tags, in source order. -/
def notesOf (i : CalcInput) : List Note :=
  (if vdLimit i.loadType < dVPercent i (selectedCable i) then [Note.vdExceedsLimit] else []) ++
  (if getIz i (selectedCable i) < i.breakerRating then [Note.breakerAboveIz] else []) ++
  (if i.breakerRating < designCurrent i then [Note.breakerBelowIb] else []) ++
  (if isIcnConformB i = false then [Note.icnShortfall] else []) ++
  (if i.loadType = LoadType.motor ∧ i.breakerCurve = BreakerCurve.B then [Note.curveMotorB]
   else if i.loadType = LoadType.iluminacao ∧ i.breakerCurve = BreakerCurve.D then [Note.curveIluminacaoD]
   else if i.loadType = LoadType.tomadas ∧ i.breakerCurve = BreakerCurve.B then [Note.curveTomadasB]
   else []) ++
  (if 100 < designCurrent i then [Note.highCurrent] else [])

/-- Step 11: the five BOM estimated prices (phase cable, neutral cable,
earth cable, breaker, conduit). -/
def bomPricesOf (i : CalcInput) : List ℚ :=
  [ i.length * (selectedCable i).«section» * 0.5,
    i.length * neutralSection i (selectedCable i) * 0.45,
    i.length * earthSection (selectedCable i) * 0.45,
    25,
    i.length * 5 ]

/-- The conductor sizing engine `calculateElectrical`. -/
def calculateElectrical (input : CalcInput) : CalcResult :=
  let c := selectedCable input
  { current := designCurrent input
    cableSection := c.«section»
    neutralSection := neutralSection input c
    earthSection := earthSection c
    conduitSize := conduitOf (totalConductorArea input c)
    breakerRating := input.breakerRating
    breakerCurve := input.breakerCurve
    breakerIcn := input.breakerIcn
    voltageDrop := dV input c
    voltageDropPercent := dVPercent input c
    shortCircuitCurrent := shortCircuitCurrent input
    isConform := isConformB input
    isIcnConform := isIcnConformB input
    izCorrected := getIz input c
    notes := notesOf input
    bomPrices := bomPricesOf input }

inductive StartingMethod where
  | direta | estrelaTriangulo | softStarter
deriving DecidableEq, Repr

/-- Input record of `calculateMotor`. -/
structure MotorCalcInput where
  powerCV : ℚ
  voltage : ℚ
  efficiency : ℚ
  powerFactor : ℚ
  startingMethod : StartingMethod
deriving DecidableEq, Repr

/-- Result record of `calculateMotor`. -/
structure MotorCalcResult where
  nominalCurrent : ℚ
  startingCurrent : ℚ
  breaker : ℚ
  relay : ℚ
  contactor : String
deriving DecidableEq, Repr

/-- The motor sizing calculator `calculateMotor`. -/
def calculateMotor (input : MotorCalcInput) : MotorCalcResult :=
  let powerW := input.powerCV * 735.5
  let In := powerW / (sqrt3 * input.voltage * (input.efficiency / 100) * input.powerFactor)
  let Ip :=
    if input.startingMethod = StartingMethod.estrelaTriangulo then In * 2.3
    else if input.startingMethod = StartingMethod.softStarter then In * 3
    else In * 7
  let breaker := (BREAKER_RATINGS.find? fun r => decide (In * 1.25 ≤ r)).getD 125
  { nominalCurrent := In
    startingCurrent := Ip
    breaker := breaker
    relay := In * 1.1
    contactor :=
      if In < 9 then "CWM9" else if In < 12 then "CWM12" else if In < 18 then "CWM18" else "CWM25" }

/-- Branch circuit of the QDC calculator (`type` is a reserved word in
Lean, hence `ctype`). -/
structure Circuit where
  id : ℤ
  current : ℚ
  ctype : String
deriving DecidableEq, Repr

/-- Input record of `calculateQDC`. -/
structure QDCCalcInput where
  circuits : List Circuit
deriving DecidableEq, Repr

/-- Result record of `calculateQDC`. -/
structure QDCCalcResult where
  totalCurrent : ℚ
  mainBreaker : ℚ
  drRating : ℚ
  dpsRating : String
  busbarCurrent : ℚ
  phaseBalance : List (String × ℚ)
deriving DecidableEq, Repr

/-- Stable descending sort by current, modelling
`circuits.sort((a, b) => b.current - a.current)` (JS `Array.prototype.sort`
is stable; any stable sort realises the same list). -/
def insertByCurrentDesc (c : Circuit) : List Circuit → List Circuit
  | [] => [c]
  | d :: rest => if d.current ≤ c.current then c :: d :: rest else d :: insertByCurrentDesc c rest

/-- Stable insertion sort realising the JS sort of `calculateQDC`. -/
def sortByCurrentDesc : List Circuit → List Circuit
  | [] => []
  | c :: rest => insertByCurrentDesc c (sortByCurrentDesc rest)

/-- Round-robin distribution of the sorted circuits over phases R, S, T
(`forEach` with `phases[i % 3].current += c.current`). -/
def distributePhasesAux : ℕ → ℚ × ℚ × ℚ → List Circuit → ℚ × ℚ × ℚ
  | _, acc, [] => acc
  | i, (r, s, t), c :: rest =>
    if i % 3 = 0 then distributePhasesAux (i + 1) (r + c.current, s, t) rest
    else if i % 3 = 1 then distributePhasesAux (i + 1) (r, s + c.current, t) rest
    else distributePhasesAux (i + 1) (r, s, t + c.current) rest

/-- Phase totals of the balancing step. -/
def distributePhases (l : List Circuit) : ℚ × ℚ × ℚ := distributePhasesAux 0 (0, 0, 0) l

/-- The QDC calculator.  `input.circuits.sort(...)` mutates the caller's
array in place, so the model returns, next to the result record, the
content of the caller's `circuits` array after the call. -/
def calculateQDC (input : QDCCalcInput) : QDCCalcResult × List Circuit :=
  let totalCurrent := input.circuits.foldl (fun acc c => acc + c.current) 0
  let mainBreaker := (BREAKER_RATINGS.find? fun r => decide (totalCurrent * 0.8 ≤ r)).getD 125
  let sorted := sortByCurrentDesc input.circuits
  let balance := distributePhases sorted
  ({ totalCurrent := totalCurrent
     mainBreaker := mainBreaker
     drRating := mainBreaker
     dpsRating := "20kA / 275V"
     busbarCurrent := mainBreaker * 1.25
     phaseBalance := [("R", balance.1), ("S", balance.2.1), ("T", balance.2.2)] },
   sorted)

/-- Input record of `calculateSolar`. -/
structure SolarInput where
  monthlyConsumption : ℚ
  solarIrradiation : ℚ
  panelPower : ℚ
deriving DecidableEq, Repr

/-- Result record of `calculateSolar`. -/
structure SolarResult where
  estimatedPanels : ℤ
  systemPower : ℚ
  monthlyGeneration : ℚ
  estimatedArea : ℚ
deriving DecidableEq, Repr

/-- The solar sizing calculator `calculateSolar` (`Math.ceil` is `⌈·⌉`). -/
def calculateSolar (input : SolarInput) : SolarResult :=
  let dailyConsumption := input.monthlyConsumption / 30
  let systemPowerKW := dailyConsumption / input.solarIrradiation / 0.8
  let panels : ℤ := ⌈systemPowerKW * 1000 / input.panelPower⌉
  { estimatedPanels := panels
    systemPower := systemPowerKW
    monthlyGeneration := systemPowerKW * input.solarIrradiation * 30 * 0.8
    estimatedArea := (panels : ℚ) * 2 }


/-- Scenario A of the spec: single-phase 127 V lighting circuit. -/
def scenarioA : CalcInput :=
  { systemType := SystemType.monofasico, voltage := 127, power := 1200, powerFactor := 1,
    loadType := LoadType.iluminacao, length := 20, method := "B1", temp := 30, grouping := 1,
    material := Material.cobre, insulation := Insulation.PVC, breakerCurve := BreakerCurve.C,
    breakerIcn := 3, breakerRating := 16 }

/-- Input refuting C1: voltage-drop and ampacity conform, but the
interrupting capacity (0.1 kA = 100 A) is below the estimated fault
current, and the source folds that into `isConform`. -/
def c1input : CalcInput :=
  { systemType := SystemType.monofasico, voltage := 100, power := 1000, powerFactor := 1,
    loadType := LoadType.iluminacao, length := 16, method := "B1", temp := 30, grouping := 1,
    material := Material.cobre, insulation := Insulation.PVC, breakerCurve := BreakerCurve.C,
    breakerIcn := 0.1, breakerRating := 16 }

/-- Family of inputs refuting C2, parameterised by circuit length: at
16 m the 1.5 mm² cable stays within the 4% limit, at 17 m the engine
upgrades to 2.5 mm², whose lower resistance reduces the drop. -/
def c2input (L : ℚ) : CalcInput :=
  { systemType := SystemType.monofasico, voltage := 100, power := 1000, powerFactor := 1,
    loadType := LoadType.iluminacao, length := L, method := "B1", temp := 30, grouping := 1,
    material := Material.cobre, insulation := Insulation.PVC, breakerCurve := BreakerCurve.C,
    breakerIcn := 10, breakerRating := 16 }

/-- Input refuting C5's phase-count enumeration: a single-phase circuit
on a 50 mm² cable; the source multiplies the phase section by 2 (not 1),
which pushes the conduit over the 150 mm² threshold. -/
def c5input : CalcInput :=
  { systemType := SystemType.monofasico, voltage := 100, power := 1000, powerFactor := 1,
    loadType := LoadType.tomadas, length := 10, method := "B1", temp := 30, grouping := 1,
    material := Material.cobre, insulation := Insulation.PVC, breakerCurve := BreakerCurve.C,
    breakerIcn := 10, breakerRating := 130 }

/-- Scenario B of the spec: 5 CV motor, 380 V, direct-on-line start. -/
def scenarioB : MotorCalcInput :=
  { powerCV := 5, voltage := 380, efficiency := 85, powerFactor := 0.8,
    startingMethod := StartingMethod.direta }

/-- Motor input refuting the universal reading of C7: the nominal
current is so large that no standard rating reaches `1.25 * In`, and the
source falls back to 125 A. -/
def motorBig : MotorCalcInput :=
  { powerCV := 1000, voltage := 380, efficiency := 85, powerFactor := 0.8,
    startingMethod := StartingMethod.direta }

/-- Two-circuit panel input exhibiting the in-place sort of
`calculateQDC` (5 A circuit listed before a 10 A circuit). -/
def qdcInput : QDCCalcInput :=
  { circuits := [ { id := 1, current := 5, ctype := "TUG" },
                  { id := 2, current := 10, ctype := "ILUM" } ] }

/-- Solar input used as a witness for C9. -/
def solarWitnessInput : SolarInput :=
  { monthlyConsumption := 300, solarIrradiation := 5, panelPower := 550 }

/-- Constructor disequalities used to reduce branch conditions of the
engine at concrete inputs. -/
theorem mono_ne_tri : SystemType.monofasico ≠ SystemType.trifasico := by decide

theorem bi_ne_tri : SystemType.bifasico ≠ SystemType.trifasico := by decide

theorem cobre_ne_aluminio : Material.cobre ≠ Material.aluminio := by decide

theorem pvc_ne_epr : Insulation.PVC ≠ Insulation.EPR := by decide

theorem ilum_ne_alim : LoadType.iluminacao ≠ LoadType.alimentador := by decide

theorem tomadas_ne_alim : LoadType.tomadas ≠ LoadType.alimentador := by decide

theorem direta_ne_estrela : StartingMethod.direta ≠ StartingMethod.estrelaTriangulo := by decide

theorem direta_ne_soft : StartingMethod.direta ≠ StartingMethod.softStarter := by decide

/-- The cable table has twelve entries. -/
theorem cable_table_length : CABLE_TABLE.length = 12 := rfl

/-- The upgrade loop never moves to a smaller section. -/
theorem vdLoop_ge (i : CalcInput) : ∀ fuel idx, idx ≤ vdLoop i fuel idx := by
  intro fuel
  induction fuel with
  | zero => intro idx; simp [vdLoop]
  | succ n ih =>
    intro idx
    rw [vdLoop]
    split
    · exact le_trans (Nat.le_succ idx) (ih (idx + 1))
    · exact le_refl idx

/-- The upgrade loop never leaves the table. -/
theorem vdLoop_le (i : CalcInput) :
    ∀ fuel idx, idx ≤ CABLE_TABLE.length - 1 → vdLoop i fuel idx ≤ CABLE_TABLE.length - 1 := by
  intro fuel
  induction fuel with
  | zero => intro idx h; simpa [vdLoop] using h
  | succ n ih =>
    intro idx h
    rw [vdLoop]
    split
    · next hcond => exact ih (idx + 1) (by omega)
    · exact h

/-- The ampacity search never leaves the table. -/
theorem findCableIdx_le (i : CalcInput) : findCableIdx i ≤ CABLE_TABLE.length - 1 :=
  min_le_right _ _

/-- The finally selected index never leaves the table. -/
theorem finalIdx_le (i : CalcInput) : finalIdx i ≤ 11 := by
  have h := vdLoop_le i CABLE_TABLE.length (findCableIdx i) (findCableIdx_le i)
  simpa [cable_table_length] using h

/-- Beyond the last index, `cableAt` is constant (the last table entry). -/
theorem cableAt_eq_last : ∀ k, 11 ≤ k → cableAt k = cableAt 11 := by
  intro k hk
  rcases Nat.eq_or_lt_of_le hk with h | h
  · rw [← h]
  · have h12 : CABLE_TABLE.length ≤ k := by rw [cable_table_length]; omega
    unfold cableAt
    rw [List.getD_eq_getElem?_getD, List.getElem?_eq_none h12]
    rfl

/-- Each capacity column of the table is non-decreasing from one section
to the next, for every method string (unknown methods read the B1 column). -/
theorem capacityFor_step (m : String) :
    ∀ k, capacityFor (cableAt k) m ≤ capacityFor (cableAt (k + 1)) m := by
  intro k
  rcases le_or_lt 11 k with hk | hk
  · rw [cableAt_eq_last k hk, cableAt_eq_last (k + 1) (by omega)]
  · by_cases hB1 : m = "B1"
    · subst hB1
      interval_cases k <;> norm_num [capacityFor, lookupStr, cableAt, CABLE_TABLE]
    · by_cases hB2 : m = "B2"
      · subst hB2
        interval_cases k <;>
          norm_num [capacityFor, lookupStr, cableAt, CABLE_TABLE,
            show ("B2":String) ≠ "B1" from by decide]
      · by_cases hC : m = "C"
        · subst hC
          interval_cases k <;>
            norm_num [capacityFor, lookupStr, cableAt, CABLE_TABLE,
              show ("C":String) ≠ "B1" from by decide, show ("C":String) ≠ "B2" from by decide]
        · interval_cases k <;>
            norm_num [capacityFor, lookupStr, cableAt, CABLE_TABLE, hB1, hB2, hC]

/-- Every stored factor of both derating tables, and the default 1, is
positive. -/
theorem lookupQ_getD_pos (l : List (ℚ × ℚ)) (hl : ∀ p ∈ l, 0 < p.2) (x : ℚ) :
    0 < (lookupQ l x).getD 1 := by
  induction l with
  | nil => simp [lookupQ]
  | cons p rest ih =>
    obtain ⟨k, v⟩ := p
    rw [lookupQ]
    split
    · simpa using hl (k, v) (by simp)
    · exact ih fun q hq => hl q (by simp [hq])

/-- Positivity of the temperature factor. -/
theorem tempFactor_pos (t : ℚ) : 0 < tempFactor t := by
  refine lookupQ_getD_pos _ ?_ t
  norm_num [TEMPERATURE_FACTORS]

/-- Positivity of the grouping factor. -/
theorem groupingFactor_pos (g : ℚ) : 0 < groupingFactor g := by
  refine lookupQ_getD_pos _ ?_ g
  norm_num [GROUPING_FACTORS]

/-- The combined derating factor is positive. -/
theorem fTotal_pos (i : CalcInput) : 0 < fTotal i := by
  unfold fTotal
  have h1 := tempFactor_pos i.temp
  have h2 := groupingFactor_pos i.grouping
  split_ifs <;> positivity

/-- Corrected ampacity is monotone along the table indices. -/
theorem getIz_mono (i : CalcInput) {a b : ℕ} (h : a ≤ b) :
    getIz i (cableAt a) ≤ getIz i (cableAt b) := by
  unfold getIz
  have hcap : capacityFor (cableAt a) i.method ≤ capacityFor (cableAt b) i.method :=
    monotone_nat_of_le_succ (capacityFor_step i.method) h
  exact mul_le_mul_of_nonneg_right hcap (le_of_lt (fTotal_pos i))

/-- When some table entry has corrected ampacity at least the proposed
breaker rating, the ampacity search lands on such an entry. -/
theorem breaker_le_getIz_findCableIdx (i : CalcInput)
    (h : ∃ c ∈ CABLE_TABLE, i.breakerRating ≤ getIz i c) :
    i.breakerRating ≤ getIz i (cableAt (findCableIdx i)) := by
  have h' : ∃ c ∈ CABLE_TABLE, (fun c => decide (i.breakerRating ≤ getIz i c)) c = true := by
    obtain ⟨c, hc, hle⟩ := h
    exact ⟨c, hc, by simpa using hle⟩
  have hlt := List.findIdx_lt_length_of_exists h'
  have hmin : findCableIdx i = CABLE_TABLE.findIdx fun c => decide (i.breakerRating ≤ getIz i c) := by
    unfold findCableIdx
    exact min_eq_left (by rw [cable_table_length] at hlt ⊢; omega)
  have hget : cableAt (findCableIdx i) =
      CABLE_TABLE.get ⟨CABLE_TABLE.findIdx fun c => decide (i.breakerRating ≤ getIz i c), hlt⟩ := by
    rw [hmin]
    unfold cableAt
    rw [List.getD_eq_getElem?_getD, List.getElem?_eq_getElem hlt]
    simp [List.get_eq_getElem]
  rw [hget]
  have hfound := List.findIdx_getElem (w := hlt)
  simpa [List.get_eq_getElem] using hfound

/-- Every cable resistance in reach of `cableAt` is positive. -/
theorem resistance_pos : ∀ k, 0 < (cableAt k).resistance := by
  intro k
  rcases le_or_lt 11 k with hk | hk
  · rw [cableAt_eq_last k hk]
    norm_num [cableAt, CABLE_TABLE]
  · interval_cases k <;> norm_num [cableAt, CABLE_TABLE]

/-- Sections grow strictly from one table entry to the next. -/
theorem section_step : ∀ k, k < 11 → (cableAt k).«section» < (cableAt (k + 1)).«section» := by
  intro k hk
  interval_cases k <;> norm_num [cableAt, CABLE_TABLE]

/-- Sections are strictly increasing on the table indices. -/
theorem section_lt : ∀ b, b ≤ 11 → ∀ a, a < b → (cableAt a).«section» < (cableAt b).«section» := by
  intro b
  induction b with
  | zero => omega
  | succ n ih =>
    intro hb a ha
    rcases Nat.lt_succ_iff_lt_or_eq.mp ha with h | h
    · exact lt_trans (ih (by omega) a h) (section_step n (by omega))
    · rw [h]; exact section_step n (by omega)

/-- Within the table, the section determines the cable. -/
theorem cable_eq_of_section_eq {a b : ℕ} (ha : a ≤ 11) (hb : b ≤ 11)
    (h : (cableAt a).«section» = (cableAt b).«section») : cableAt a = cableAt b := by
  rcases lt_trichotomy a b with hab | hab | hab
  · exact absurd h (ne_of_lt (section_lt b hb a hab))
  · rw [hab]
  · exact absurd h.symm (ne_of_lt (section_lt a ha b hab))

/-- Resistance used in the drop formula is positive for table cables. -/
theorem resistanceUsed_pos (i : CalcInput) (k : ℕ) : 0 < resistanceUsed i (cableAt k) := by
  unfold resistanceUsed
  have := resistance_pos k
  split_ifs <;> nlinarith

/-- The design current is non-negative for physically meaningful inputs. -/
theorem designCurrent_nonneg (i : CalcInput) (hp : 0 ≤ i.power) (hv : 0 < i.voltage)
    (hpf : 0 < i.powerFactor) : 0 ≤ designCurrent i := by
  unfold designCurrent
  have hs3 : (0:ℚ) < sqrt3 := by norm_num [sqrt3]
  split_ifs
  · positivity
  · positivity

/-- Scenario A: design current is `1200 / 127` A. -/
theorem evalA_dc : designCurrent scenarioA = 1200 / 127 := by
  norm_num [designCurrent, scenarioA, mono_ne_tri]

/-- Scenario A: all derating factors are neutral. -/
theorem evalA_ft : fTotal scenarioA = 1 := by
  norm_num [fTotal, tempFactor, groupingFactor, lookupQ, TEMPERATURE_FACTORS, GROUPING_FACTORS,
    scenarioA, cobre_ne_aluminio, pvc_ne_epr]

/-- Scenario A: the ampacity search selects the first table entry. -/
theorem evalA_fci : findCableIdx scenarioA = 0 := by
  norm_num [findCableIdx, CABLE_TABLE, List.findIdx_cons, getIz, capacityFor, lookupStr,
    show scenarioA.method = "B1" from rfl, show scenarioA.breakerRating = 16 from rfl, evalA_ft]

/-- Scenario A: the voltage-drop loop keeps the first entry. -/
theorem evalA_fi : finalIdx scenarioA = 0 := by
  norm_num [finalIdx, evalA_fci, vdLoop, cableAt, CABLE_TABLE, dVPercent, dV, resistanceUsed,
    evalA_dc, vdLimit, show scenarioA.loadType = LoadType.iluminacao from rfl,
    show scenarioA.systemType = SystemType.monofasico from rfl,
    show scenarioA.material = Material.cobre from rfl,
    show scenarioA.voltage = (127:ℚ) from rfl, show scenarioA.length = (20:ℚ) from rfl,
    mono_ne_tri, cobre_ne_aluminio, ilum_ne_alim]

/-- Scenario A: the finally selected cable is the 1.5 mm² entry. -/
theorem evalA_selected : selectedCable scenarioA = cableAt 0 := by
  rw [selectedCable, evalA_fi]

/-- Scenario A: voltage drop at the selected cable, exactly. -/
theorem evalA_vd : dV scenarioA (cableAt 0) = 2904 / 635 := by
  norm_num [dV, resistanceUsed, cableAt, CABLE_TABLE, evalA_dc,
    show scenarioA.systemType = SystemType.monofasico from rfl,
    show scenarioA.material = Material.cobre from rfl,
    show scenarioA.length = (20:ℚ) from rfl, mono_ne_tri, cobre_ne_aluminio]

/-- Scenario A: percent voltage drop at the selected cable, exactly. -/
theorem evalA_pct : dVPercent scenarioA (cableAt 0) = 58080 / 16129 := by
  norm_num [dVPercent, evalA_vd, show scenarioA.voltage = (127:ℚ) from rfl]

/-- Scenario A: corrected ampacity of the selected cable. -/
theorem evalA_iz : getIz scenarioA (cableAt 0) = 17.5 := by
  norm_num [getIz, capacityFor, lookupStr, cableAt, CABLE_TABLE, evalA_ft,
    show scenarioA.method = "B1" from rfl]

/-- Scenario A: estimated short-circuit current, exactly. -/
theorem evalA_isc : shortCircuitCurrent scenarioA = 63500 / 121 := by
  norm_num [shortCircuitCurrent, estimateShortCircuit, scaledResistance, resistanceOf,
    evalA_selected, cableAt, CABLE_TABLE, List.find?,
    show scenarioA.voltage = (127:ℚ) from rfl, show scenarioA.length = (20:ℚ) from rfl]

/-- C3: for every input such that some table entry has corrected
ampacity at least the proposed breaker rating, the corrected ampacity of
the finally returned cable (after any voltage-drop upgrades) is at least
the proposed breaker rating. -/
theorem c3_iz_ge_breaker (i : CalcInput)
    (h : ∃ c ∈ CABLE_TABLE, i.breakerRating ≤ getIz i c) :
    i.breakerRating ≤ (calculateElectrical i).izCorrected := by
  show i.breakerRating ≤ getIz i (selectedCable i)
  have h0 := breaker_le_getIz_findCableIdx i h
  have h1 : getIz i (cableAt (findCableIdx i)) ≤ getIz i (cableAt (finalIdx i)) :=
    getIz_mono i (vdLoop_ge i CABLE_TABLE.length (findCableIdx i))
  exact le_trans h0 h1

/-- Witness for C3 at Scenario A: its 16 A breaker is met by the first
table entry, and the returned corrected ampacity indeed reaches 16 A. -/
theorem c3_witness : scenarioA.breakerRating ≤ (calculateElectrical scenarioA).izCorrected :=
  c3_iz_ge_breaker scenarioA
    ⟨cableAt 0, by norm_num [cableAt, CABLE_TABLE],
      by rw [evalA_iz, show scenarioA.breakerRating = 16 from rfl]; norm_num⟩

/-- C4: at Scenario A, the engine returns design current about 9.45 A,
the 1.5 mm² section with corrected ampacity 17.5 A, a drop of about
4.57 V (about 3.60 percent, within the 4 percent limit), and overall
conformity true. -/
theorem c4_scenario_a :
    (calculateElectrical scenarioA).cableSection = 1.5 ∧
    (calculateElectrical scenarioA).izCorrected = 17.5 ∧
    |(calculateElectrical scenarioA).current - 9.45| < 1 / 100 ∧
    |(calculateElectrical scenarioA).voltageDrop - 4.57| < 1 / 100 ∧
    |(calculateElectrical scenarioA).voltageDropPercent - 3.6| < 1 / 100 ∧
    (calculateElectrical scenarioA).voltageDropPercent ≤ 4 ∧
    (calculateElectrical scenarioA).isConform = true := by
  have hsec : (calculateElectrical scenarioA).cableSection = 1.5 := by
    show (selectedCable scenarioA).«section» = 1.5
    rw [evalA_selected]; norm_num [cableAt, CABLE_TABLE]
  have hiz : (calculateElectrical scenarioA).izCorrected = 17.5 := by
    show getIz scenarioA (selectedCable scenarioA) = 17.5
    rw [evalA_selected, evalA_iz]
  have hcur : (calculateElectrical scenarioA).current = 1200 / 127 := evalA_dc
  have hvd : (calculateElectrical scenarioA).voltageDrop = 2904 / 635 := by
    show dV scenarioA (selectedCable scenarioA) = 2904 / 635
    rw [evalA_selected, evalA_vd]
  have hpct : (calculateElectrical scenarioA).voltageDropPercent = 58080 / 16129 := by
    show dVPercent scenarioA (selectedCable scenarioA) = 58080 / 16129
    rw [evalA_selected, evalA_pct]
  refine ⟨hsec, hiz, ?_, ?_, ?_, ?_, ?_⟩
  · rw [hcur, abs_sub_lt_iff]; constructor <;> norm_num
  · rw [hvd, abs_sub_lt_iff]; constructor <;> norm_num
  · rw [hpct, abs_sub_lt_iff]; constructor <;> norm_num
  · rw [hpct]; norm_num
  · show isConformB scenarioA = true
    have h1 : dVPercent scenarioA (selectedCable scenarioA) = 58080 / 16129 := by
      rw [evalA_selected, evalA_pct]
    have h2 : getIz scenarioA (selectedCable scenarioA) = 17.5 := by
      rw [evalA_selected, evalA_iz]
    have h3 : isIcnConformB scenarioA = true := by
      simp only [isIcnConformB, evalA_isc, decide_eq_true_eq,
        show scenarioA.breakerIcn = (3:ℚ) from rfl]
      norm_num
    simp only [isConformB, h1, h2, h3, Bool.and_eq_true, decide_eq_true_eq, vdLimit,
      show scenarioA.loadType = LoadType.iluminacao from rfl,
      show scenarioA.breakerRating = (16:ℚ) from rfl]
    norm_num [ilum_ne_alim]

/-- c1input: design current is 10 A. -/
theorem evalC1_dc : designCurrent c1input = 10 := by
  norm_num [designCurrent, c1input, mono_ne_tri]

/-- c1input: all derating factors are neutral. -/
theorem evalC1_ft : fTotal c1input = 1 := by
  norm_num [fTotal, tempFactor, groupingFactor, lookupQ, TEMPERATURE_FACTORS, GROUPING_FACTORS,
    c1input, cobre_ne_aluminio, pvc_ne_epr]

/-- c1input: the ampacity search selects the first table entry. -/
theorem evalC1_fci : findCableIdx c1input = 0 := by
  norm_num [findCableIdx, CABLE_TABLE, List.findIdx_cons, getIz, capacityFor, lookupStr,
    show c1input.method = "B1" from rfl, show c1input.breakerRating = 16 from rfl, evalC1_ft]

/-- c1input: the voltage-drop loop keeps the first entry. -/
theorem evalC1_fi : finalIdx c1input = 0 := by
  norm_num [finalIdx, evalC1_fci, vdLoop, cableAt, CABLE_TABLE, dVPercent, dV, resistanceUsed,
    evalC1_dc, vdLimit, show c1input.loadType = LoadType.iluminacao from rfl,
    show c1input.systemType = SystemType.monofasico from rfl,
    show c1input.material = Material.cobre from rfl,
    show c1input.voltage = (100:ℚ) from rfl, show c1input.length = (16:ℚ) from rfl,
    mono_ne_tri, cobre_ne_aluminio, ilum_ne_alim]

/-- c1input: percent voltage drop at the selected cable, exactly. -/
theorem evalC1_pct : dVPercent c1input (cableAt 0) = 484 / 125 := by
  norm_num [dVPercent, dV, resistanceUsed, cableAt, CABLE_TABLE, evalC1_dc,
    show c1input.systemType = SystemType.monofasico from rfl,
    show c1input.material = Material.cobre from rfl,
    show c1input.voltage = (100:ℚ) from rfl, show c1input.length = (16:ℚ) from rfl,
    mono_ne_tri, cobre_ne_aluminio]

/-- c1input: corrected ampacity of the selected cable. -/
theorem evalC1_iz : getIz c1input (cableAt 0) = 17.5 := by
  norm_num [getIz, capacityFor, lookupStr, cableAt, CABLE_TABLE, evalC1_ft,
    show c1input.method = "B1" from rfl]

/-- c1input: estimated short-circuit current, exactly. -/
theorem evalC1_isc : shortCircuitCurrent c1input = 62500 / 121 := by
  norm_num [shortCircuitCurrent, estimateShortCircuit, scaledResistance, resistanceOf,
    selectedCable, evalC1_fi, cableAt, CABLE_TABLE, List.find?,
    show c1input.voltage = (100:ℚ) from rfl, show c1input.length = (16:ℚ) from rfl]

/-- C1 counterexample: at `c1input` the corrected percent drop is within
the limit and the breaker is within the corrected ampacity, yet
`isConform` is false (the flag also requires interrupting-capacity
conformity, which fails at 0.1 kA). -/
theorem c1_counterexample :
    (calculateElectrical c1input).voltageDropPercent ≤ vdLimit c1input.loadType ∧
    (calculateElectrical c1input).breakerRating ≤ (calculateElectrical c1input).izCorrected ∧
    (calculateElectrical c1input).isConform = false := by
  have hpct : (calculateElectrical c1input).voltageDropPercent = 484 / 125 := by
    show dVPercent c1input (selectedCable c1input) = 484 / 125
    rw [selectedCable, evalC1_fi, evalC1_pct]
  have hiz : (calculateElectrical c1input).izCorrected = 17.5 := by
    show getIz c1input (selectedCable c1input) = 17.5
    rw [selectedCable, evalC1_fi, evalC1_iz]
  have hicn : isIcnConformB c1input = false := by
    simp only [isIcnConformB, evalC1_isc, decide_eq_false_iff_not,
      show c1input.breakerIcn = (0.1:ℚ) from rfl]
    norm_num
  refine ⟨?_, ?_, ?_⟩
  · rw [hpct]
    norm_num [vdLimit, show c1input.loadType = LoadType.iluminacao from rfl, ilum_ne_alim]
  · rw [hiz]
    show c1input.breakerRating ≤ (17.5:ℚ)
    norm_num [show c1input.breakerRating = (16:ℚ) from rfl]
  · show isConformB c1input = false
    simp [isConformB, hicn]

/-- C1 amended: `isConform` is the overall conformity flag: it is true
iff the corrected percent drop is within the load-type limit, the
proposed breaker rating is within the corrected ampacity of the final
cable, and the interrupting-capacity flag holds; it is not independent
of `isIcnConform`. -/
theorem c1_isConform_iff (i : CalcInput) :
    (calculateElectrical i).isConform = true ↔
      ((calculateElectrical i).voltageDropPercent ≤ vdLimit i.loadType ∧
        (calculateElectrical i).breakerRating ≤ (calculateElectrical i).izCorrected ∧
        (calculateElectrical i).isIcnConform = true) := by
  show isConformB i = true ↔ _
  simp only [calculateElectrical, isConformB, Bool.and_eq_true, decide_eq_true_eq]
  tauto

/-- c2input family: design current is 10 A, whatever the length. -/
theorem evalC2_dc (L : ℚ) : designCurrent (c2input L) = 10 := by
  norm_num [designCurrent, c2input, mono_ne_tri]

/-- c2input family: all derating factors are neutral. -/
theorem evalC2_ft (L : ℚ) : fTotal (c2input L) = 1 := by
  norm_num [fTotal, tempFactor, groupingFactor, lookupQ, TEMPERATURE_FACTORS, GROUPING_FACTORS,
    c2input, cobre_ne_aluminio, pvc_ne_epr]

/-- c2input family: the ampacity search selects the first table entry. -/
theorem evalC2_fci (L : ℚ) : findCableIdx (c2input L) = 0 := by
  norm_num [findCableIdx, CABLE_TABLE, List.findIdx_cons, getIz, capacityFor, lookupStr,
    show (c2input L).method = "B1" from rfl, show (c2input L).breakerRating = 16 from rfl,
    evalC2_ft]

/-- c2input: percent voltage drop formula at a fixed cable index. -/
theorem evalC2_pct (L : ℚ) (k : ℕ) :
    dVPercent (c2input L) (cableAt k) = 2 * L * 10 * (cableAt k).resistance / 1000 := by
  rw [dVPercent, dV]
  norm_num [resistanceUsed, evalC2_dc, show (c2input L).systemType = SystemType.monofasico from rfl,
    show (c2input L).material = Material.cobre from rfl,
    show (c2input L).voltage = (100:ℚ) from rfl, show (c2input L).length = L from rfl,
    mono_ne_tri, cobre_ne_aluminio]

/-- Resistance of the first table entry. -/
theorem cableAt0_res : (cableAt 0).resistance = 12.1 := by norm_num [cableAt, CABLE_TABLE]

/-- Resistance of the second table entry. -/
theorem cableAt1_res : (cableAt 1).resistance = 7.41 := by norm_num [cableAt, CABLE_TABLE]

/-- c2input at 16 m: the loop keeps the 1.5 mm² entry (3.872 % ≤ 4 %). -/
theorem evalC2_fi16 : finalIdx (c2input 16) = 0 := by
  norm_num [finalIdx, evalC2_fci, vdLoop, evalC2_pct, cableAt0_res, vdLimit, cable_table_length,
    show (c2input 16).loadType = LoadType.iluminacao from rfl, ilum_ne_alim]

/-- c2input at 17 m: the loop upgrades once, to the 2.5 mm² entry
(4.114 % > 4 % on 1.5 mm², then 2.5194 % ≤ 4 %). -/
theorem evalC2_fi17 : finalIdx (c2input 17) = 1 := by
  norm_num [finalIdx, evalC2_fci, vdLoop, evalC2_pct, cableAt0_res, cableAt1_res, vdLimit,
    cable_table_length,
    show (c2input 17).loadType = LoadType.iluminacao from rfl, ilum_ne_alim]

/-- C2 counterexample: the 17 m input only differs from the 16 m input
by a strictly greater length, yet both its voltage drop and its percent
drop are strictly smaller, because the engine upgraded the cable. -/
theorem c2_counterexample :
    c2input 17 = { c2input 16 with length := 17 } ∧
    (c2input 16).length < (c2input 17).length ∧
    (calculateElectrical (c2input 17)).voltageDrop <
      (calculateElectrical (c2input 16)).voltageDrop ∧
    (calculateElectrical (c2input 17)).voltageDropPercent <
      (calculateElectrical (c2input 16)).voltageDropPercent := by
  have h16 : (calculateElectrical (c2input 16)).voltageDrop = dV (c2input 16) (cableAt 0) := by
    show dV (c2input 16) (selectedCable (c2input 16)) = _
    rw [selectedCable, evalC2_fi16]
  have h17 : (calculateElectrical (c2input 17)).voltageDrop = dV (c2input 17) (cableAt 1) := by
    show dV (c2input 17) (selectedCable (c2input 17)) = _
    rw [selectedCable, evalC2_fi17]
  have p16 : (calculateElectrical (c2input 16)).voltageDropPercent =
      dVPercent (c2input 16) (cableAt 0) := by
    show dVPercent (c2input 16) (selectedCable (c2input 16)) = _
    rw [selectedCable, evalC2_fi16]
  have p17 : (calculateElectrical (c2input 17)).voltageDropPercent =
      dVPercent (c2input 17) (cableAt 1) := by
    show dVPercent (c2input 17) (selectedCable (c2input 17)) = _
    rw [selectedCable, evalC2_fi17]
  refine ⟨rfl, by norm_num [c2input], ?_, ?_⟩
  · rw [h16, h17]
    norm_num [dV, resistanceUsed, evalC2_dc, cableAt, CABLE_TABLE,
      show (c2input 16).systemType = SystemType.monofasico from rfl,
      show (c2input 17).systemType = SystemType.monofasico from rfl,
      show (c2input 16).material = Material.cobre from rfl,
      show (c2input 17).material = Material.cobre from rfl,
      show (c2input 16).length = (16:ℚ) from rfl, show (c2input 17).length = (17:ℚ) from rfl,
      mono_ne_tri, cobre_ne_aluminio]
  · rw [p16, p17, evalC2_pct, evalC2_pct]
    norm_num [cableAt, CABLE_TABLE]

/-- c2input at 10 m: the loop keeps the 1.5 mm² entry. -/
theorem evalC2_fi10 : finalIdx (c2input 10) = 0 := by
  norm_num [finalIdx, evalC2_fci, vdLoop, evalC2_pct, cableAt0_res, vdLimit, cable_table_length,
    show (c2input 10).loadType = LoadType.iluminacao from rfl, ilum_ne_alim]

/-- c2input at 12 m: the loop keeps the 1.5 mm² entry. -/
theorem evalC2_fi12 : finalIdx (c2input 12) = 0 := by
  norm_num [finalIdx, evalC2_fci, vdLoop, evalC2_pct, cableAt0_res, vdLimit, cable_table_length,
    show (c2input 12).loadType = LoadType.iluminacao from rfl, ilum_ne_alim]

/-- C2 amended: increasing only the circuit length never decreases the
returned voltage drop or its percentage, provided the two runs select
the same final cable section and the input is physically meaningful
(non-negative power, positive voltage and power factor).  The
counterexample shows the proviso is needed: a longer run may upgrade the
cable and lower the drop. -/
theorem c2_vd_monotone_same_cable (i : CalcInput) (L₂ : ℚ)
    (hL : i.length < L₂) (hp : 0 ≤ i.power) (hv : 0 < i.voltage) (hpf : 0 < i.powerFactor)
    (hsec : (calculateElectrical i).cableSection =
      (calculateElectrical { i with length := L₂ }).cableSection) :
    (calculateElectrical i).voltageDrop ≤
      (calculateElectrical { i with length := L₂ }).voltageDrop ∧
    (calculateElectrical i).voltageDropPercent ≤
      (calculateElectrical { i with length := L₂ }).voltageDropPercent := by
  have hsec' : (cableAt (finalIdx i)).«section» =
      (cableAt (finalIdx { i with length := L₂ })).«section» := hsec
  have hcable : cableAt (finalIdx i) = cableAt (finalIdx { i with length := L₂ }) :=
    cable_eq_of_section_eq (finalIdx_le i) (finalIdx_le { i with length := L₂ }) hsec'
  have hdc : designCurrent { i with length := L₂ } = designCurrent i := rfl
  have hK : 0 ≤ designCurrent i := designCurrent_nonneg i hp hv hpf
  have hR : 0 < resistanceUsed i (cableAt (finalIdx i)) := resistanceUsed_pos i (finalIdx i)
  have hRu : resistanceUsed { i with length := L₂ } (cableAt (finalIdx i)) =
      resistanceUsed i (cableAt (finalIdx i)) := rfl
  have hs3 : (0:ℚ) < sqrt3 := by norm_num [sqrt3]
  have hdV : dV i (cableAt (finalIdx i)) ≤
      dV { i with length := L₂ } (cableAt (finalIdx { i with length := L₂ })) := by
    rw [← hcable]
    unfold dV
    rw [hdc, hRu]
    have hsys : ({ i with length := L₂ } : CalcInput).systemType = i.systemType := rfl
    rw [hsys]
    have hlen2 : ({ i with length := L₂ } : CalcInput).length = L₂ := rfl
    rw [hlen2]
    split_ifs
    · gcongr
    · gcongr
  refine ⟨hdV, ?_⟩
  show dV i (cableAt (finalIdx i)) / i.voltage * 100 ≤
    dV { i with length := L₂ } (cableAt (finalIdx { i with length := L₂ })) /
      ({ i with length := L₂ } : CalcInput).voltage * 100
  have hvolt : ({ i with length := L₂ } : CalcInput).voltage = i.voltage := rfl
  rw [hvolt]
  gcongr

/-- Witness for the amended C2, at the c2input family with lengths 10
and 12 (both runs stay on the 1.5 mm² cable). -/
theorem c2_witness :
    (calculateElectrical (c2input 10)).voltageDrop ≤
      (calculateElectrical (c2input 12)).voltageDrop ∧
    (calculateElectrical (c2input 10)).voltageDropPercent ≤
      (calculateElectrical (c2input 12)).voltageDropPercent := by
  have heq : ({ c2input 10 with length := 12 } : CalcInput) = c2input 12 := rfl
  have h := c2_vd_monotone_same_cable (c2input 10) 12
    (by rw [show (c2input 10).length = (10:ℚ) from rfl]; norm_num)
    (by rw [show (c2input 10).power = (1000:ℚ) from rfl]; norm_num)
    (by rw [show (c2input 10).voltage = (100:ℚ) from rfl]; norm_num)
    (by rw [show (c2input 10).powerFactor = (1:ℚ) from rfl]; norm_num)
    (by
      show (cableAt (finalIdx (c2input 10))).«section» =
        (cableAt (finalIdx ({ c2input 10 with length := 12 }))).«section»
      rw [heq, evalC2_fi10, evalC2_fi12])
  rwa [heq] at h

/-- Section and resistance of the ninth table entry (50 mm²). -/
theorem cableAt8_sec : (cableAt 8).«section» = 50 := by norm_num [cableAt, CABLE_TABLE]

theorem cableAt8_res : (cableAt 8).resistance = 0.387 := by norm_num [cableAt, CABLE_TABLE]

/-- c5input: design current is 10 A. -/
theorem evalC5_dc : designCurrent c5input = 10 := by
  norm_num [designCurrent, c5input, mono_ne_tri]

/-- c5input: all derating factors are neutral. -/
theorem evalC5_ft : fTotal c5input = 1 := by
  norm_num [fTotal, tempFactor, groupingFactor, lookupQ, TEMPERATURE_FACTORS, GROUPING_FACTORS,
    c5input, cobre_ne_aluminio, pvc_ne_epr]

/-- c5input: the 130 A breaker needs the ninth entry (151 A corrected). -/
theorem evalC5_fci : findCableIdx c5input = 8 := by
  norm_num [findCableIdx, CABLE_TABLE, List.findIdx_cons, getIz, capacityFor, lookupStr,
    show c5input.method = "B1" from rfl, show c5input.breakerRating = 130 from rfl, evalC5_ft]

/-- c5input: the voltage-drop loop keeps the ninth entry. -/
theorem evalC5_fi : finalIdx c5input = 8 := by
  norm_num [finalIdx, evalC5_fci, vdLoop, dVPercent, dV, resistanceUsed, evalC5_dc, cableAt8_res,
    vdLimit, cable_table_length, show c5input.loadType = LoadType.tomadas from rfl,
    show c5input.systemType = SystemType.monofasico from rfl,
    show c5input.material = Material.cobre from rfl,
    show c5input.voltage = (100:ℚ) from rfl, show c5input.length = (10:ℚ) from rfl,
    mono_ne_tri, cobre_ne_aluminio, tomadas_ne_alim]

/-- C5 counterexample: a single-phase run on a 50 mm² cable.  The
engine's conduit total counts the phase section twice (not once), so it
returns the 1-inch size while the claim's single-phase formula
(1 × phase + neutral + earth = 125 mm²) would stay at 3/4 inch. -/
theorem c5_counterexample :
    c5input.systemType = SystemType.monofasico ∧
    (calculateElectrical c5input).cableSection = 50 ∧
    (calculateElectrical c5input).neutralSection = 50 ∧
    (calculateElectrical c5input).earthSection = 25 ∧
    (calculateElectrical c5input).conduitSize = "1\"" ∧
    conduitOf (50 * 1 + 50 + 25) = "3/4\"" := by
  have hsec : (calculateElectrical c5input).cableSection = 50 := by
    show (selectedCable c5input).«section» = 50
    rw [selectedCable, evalC5_fi, cableAt8_sec]
  have hneu : (calculateElectrical c5input).neutralSection = 50 := by
    show neutralSection c5input (selectedCable c5input) = 50
    rw [selectedCable, evalC5_fi]
    norm_num [neutralSection, cableAt8_sec,
      show c5input.systemType = SystemType.monofasico from rfl, mono_ne_tri]
  have hear : (calculateElectrical c5input).earthSection = 25 := by
    show earthSection (selectedCable c5input) = 25
    rw [selectedCable, evalC5_fi]
    norm_num [earthSection, cableAt8_sec]
  refine ⟨rfl, hsec, hneu, hear, ?_, ?_⟩
  · show conduitOf (totalConductorArea c5input (selectedCable c5input)) = "1\""
    have harea : totalConductorArea c5input (selectedCable c5input) = 175 := by
      rw [totalConductorArea]
      rw [show neutralSection c5input (selectedCable c5input) = 50 from hneu,
        show earthSection (selectedCable c5input) = 25 from hear]
      rw [selectedCable, evalC5_fi, cableAt8_sec]
      norm_num [phaseCondCount, show c5input.systemType = SystemType.monofasico from rfl,
        mono_ne_tri]
    rw [harea]
    norm_num [conduitOf]
  · norm_num [conduitOf]

/-- C5 amended: the conduit total multiplies the phase section by 3 for
three-phase and by 2 otherwise (also for single-phase), adds neutral and
earth, and the total is mapped through the ascending thresholds
150/300/500/800 to one of the five trade sizes. -/
theorem c5_conduit_formula (i : CalcInput) :
    (calculateElectrical i).conduitSize =
      conduitOf ((calculateElectrical i).cableSection * phaseCondCount i.systemType +
        (calculateElectrical i).neutralSection + (calculateElectrical i).earthSection) ∧
    phaseCondCount i.systemType = (if i.systemType = SystemType.trifasico then 3 else 2) ∧
    ∀ a : ℚ, conduitOf a = "3/4\"" ∨ conduitOf a = "1\"" ∨ conduitOf a = "1 1/4\"" ∨
      conduitOf a = "1 1/2\"" ∨ conduitOf a = "2\"" := by
  refine ⟨rfl, rfl, ?_⟩
  intro a
  unfold conduitOf
  split_ifs <;> simp

/-- C6 (code bug): `calculateQDC` sorts the caller's circuit list in
place; after the call on two circuits of 5 A and 10 A (in that order)
the caller's array holds them in descending order, not the original one. -/
theorem c6_mutation_at_failing_input :
    (calculateQDC qdcInput).2 =
      [ { id := 2, current := 10, ctype := "ILUM" }, { id := 1, current := 5, ctype := "TUG" } ] ∧
    (calculateQDC qdcInput).2 ≠ qdcInput.circuits := by
  have h : (calculateQDC qdcInput).2 =
      [ ({ id := 2, current := 10, ctype := "ILUM" } : Circuit),
        { id := 1, current := 5, ctype := "TUG" } ] := by
    show sortByCurrentDesc qdcInput.circuits = _
    norm_num [qdcInput, sortByCurrentDesc, insertByCurrentDesc]
  refine ⟨h, ?_⟩
  rw [h]
  norm_num [qdcInput]

/-- On a sorted list, `find?` with a lower-bound test returns the least
element meeting the bound. -/
theorem find?_ge_spec (x : ℚ) :
    ∀ l : List ℚ, l.Pairwise (· ≤ ·) → ∀ b, (l.find? fun r => decide (x ≤ r)) = some b →
      b ∈ l ∧ x ≤ b ∧ ∀ r ∈ l, x ≤ r → b ≤ r := by
  intro l
  induction l with
  | nil => intro _ b hb; simp [List.find?] at hb
  | cons a t ih =>
    intro hp b hb
    rcases List.pairwise_cons.mp hp with ⟨ha, ht⟩
    by_cases hxa : x ≤ a
    · rw [List.find?_cons_of_pos _ (by simpa using hxa)] at hb
      obtain rfl : a = b := by simpa using hb
      refine ⟨by simp, hxa, ?_⟩
      intro r hr _
      rcases List.mem_cons.mp hr with rfl | hr
      · exact le_refl r
      · exact ha r hr
    · rw [List.find?_cons_of_neg _ (by simpa using hxa)] at hb
      obtain ⟨hmem, hxb, hmin⟩ := ih ht b hb
      refine ⟨List.mem_cons_of_mem a hmem, hxb, ?_⟩
      intro r hr hxr
      rcases List.mem_cons.mp hr with rfl | hr
      · exact absurd hxr hxa
      · exact hmin r hr hxr

/-- Scenario B: exact nominal current (with `sqrt3` the exact double of
`Math.sqrt(3)`). -/
theorem evalB_In :
    (calculateMotor scenarioB).nominalCurrent = 10351242268534374400 / 1259774834505964863 := by
  show 5 * 735.5 / (sqrt3 * 380 * (85 / 100) * (0.8:ℚ)) = _
  rw [sqrt3]
  norm_num

/-- C7 counterexample: at a 1000 CV motor the nominal current is about
1643 A, no standard rating reaches `1.25 * In`, and the source still
returns 125 A, which is not a rating `≥ 1.25 * In`. -/
theorem c7_counterexample :
    (calculateMotor motorBig).breaker = 125 ∧
    ∀ r ∈ BREAKER_RATINGS, r < (calculateMotor motorBig).nominalCurrent * 1.25 := by
  have hIn : (calculateMotor motorBig).nominalCurrent = 2070248453706874880 / 1259774834505964863 * 1000 := by
    show 1000 * 735.5 / (sqrt3 * 380 * (85 / 100) * (0.8:ℚ)) = _
    rw [sqrt3]
    norm_num
  constructor
  · show ((BREAKER_RATINGS.find? fun r =>
        decide ((calculateMotor motorBig).nominalCurrent * 1.25 ≤ r)).getD 125) = 125
    rw [hIn]
    norm_num [BREAKER_RATINGS, List.find?]
  · intro r hr
    rw [hIn]
    fin_cases hr <;> norm_num

/-- C7 amended: whenever some standard rating reaches `1.25 * In` the
returned breaker is the smallest such rating (otherwise the source falls
back to 125 A); and at Scenario B the nominal current is about 8.22 A,
the starting current is 7 times it (about 57.5 A), the breaker is 13 A
and the contactor is the smallest class. -/
theorem c7_breaker_least_and_scenario_b :
    (∀ inp : MotorCalcInput, ∀ r ∈ BREAKER_RATINGS,
        (calculateMotor inp).nominalCurrent * 1.25 ≤ r →
        (calculateMotor inp).breaker ∈ BREAKER_RATINGS ∧
        (calculateMotor inp).nominalCurrent * 1.25 ≤ (calculateMotor inp).breaker ∧
        ∀ q ∈ BREAKER_RATINGS, (calculateMotor inp).nominalCurrent * 1.25 ≤ q →
          (calculateMotor inp).breaker ≤ q) ∧
    (|(calculateMotor scenarioB).nominalCurrent - 8.22| < 1 / 100 ∧
     (calculateMotor scenarioB).startingCurrent = (calculateMotor scenarioB).nominalCurrent * 7 ∧
     |(calculateMotor scenarioB).startingCurrent - 57.5| < 5 / 100 ∧
     (calculateMotor scenarioB).breaker = 13 ∧
     (calculateMotor scenarioB).contactor = "CWM9") := by
  constructor
  · intro inp r hr hle
    have hbr : (calculateMotor inp).breaker =
        ((BREAKER_RATINGS.find? fun q =>
          decide ((calculateMotor inp).nominalCurrent * 1.25 ≤ q)).getD 125) := rfl
    have hex : ∃ q, q ∈ BREAKER_RATINGS ∧
        (fun q => decide ((calculateMotor inp).nominalCurrent * 1.25 ≤ q)) q = true :=
      ⟨r, hr, by simpa using hle⟩
    have hsome := List.find?_isSome.mpr hex
    obtain ⟨b, hb⟩ := Option.isSome_iff_exists.mp hsome
    have hpw : BREAKER_RATINGS.Pairwise (· ≤ ·) := by
      norm_num [BREAKER_RATINGS, List.pairwise_cons]
    obtain ⟨hmem, hxb, hmin⟩ := find?_ge_spec _ BREAKER_RATINGS hpw b hb
    rw [hbr, hb]
    exact ⟨hmem, hxb, fun q hq hxq => hmin q hq hxq⟩
  · have hIn := evalB_In
    have hIp : (calculateMotor scenarioB).startingCurrent =
        (calculateMotor scenarioB).nominalCurrent * 7 := by
      simp only [calculateMotor]
      rw [show scenarioB.startingMethod = StartingMethod.direta from rfl]
      simp [direta_ne_estrela, direta_ne_soft]
    refine ⟨?_, hIp, ?_, ?_, ?_⟩
    · rw [hIn, abs_sub_lt_iff]
      constructor <;> norm_num
    · rw [hIp, hIn, abs_sub_lt_iff]
      constructor <;> norm_num
    · show ((BREAKER_RATINGS.find? fun q =>
        decide ((calculateMotor scenarioB).nominalCurrent * 1.25 ≤ q)).getD 125) = 13
      rw [hIn]
      norm_num [BREAKER_RATINGS, List.find?]
    · show (if (calculateMotor scenarioB).nominalCurrent < 9 then "CWM9"
        else if (calculateMotor scenarioB).nominalCurrent < 12 then "CWM12"
        else if (calculateMotor scenarioB).nominalCurrent < 18 then "CWM18" else "CWM25") = "CWM9"
      rw [hIn]
      norm_num

/-- Witness for the amended C7's conditional part, at Scenario B with
the 13 A rating. -/
theorem c7_witness :
    (calculateMotor scenarioB).breaker ∈ BREAKER_RATINGS ∧
    (calculateMotor scenarioB).nominalCurrent * 1.25 ≤ (calculateMotor scenarioB).breaker := by
  have h := c7_breaker_least_and_scenario_b.1 scenarioB 13
    (by norm_num [BREAKER_RATINGS])
    (by rw [evalB_In]; norm_num)
  exact ⟨h.1, h.2.1⟩

/-- C8: the three lookup fallbacks of the engine.  The model itself is a
total Lean function, matching the contract that `calculateElectrical`
never throws: an ambient temperature absent from the table contributes
factor 1, a grouped-circuit count absent from the table contributes
factor 1, and a method code absent from a cable's capacity map reads the
B1 capacity. -/
theorem c8_lookup_fallbacks :
    (∀ t : ℚ, t ∉ ([10, 15, 20, 25, 30, 35, 40, 45, 50] : List ℚ) → tempFactor t = 1) ∧
    (∀ g : ℚ, g ∉ ([1, 2, 3, 4, 5, 6, 7, 8, 9] : List ℚ) → groupingFactor g = 1) ∧
    (∀ c ∈ CABLE_TABLE, ∀ m : String, m ∉ (["B1", "B2", "C"] : List String) →
      capacityFor c m = capacityFor c "B1") := by
  refine ⟨?_, ?_, ?_⟩
  · intro t ht
    simp only [List.mem_cons, List.not_mem_nil, or_false, not_or] at ht
    obtain ⟨h1, h2, h3, h4, h5, h6, h7, h8, h9⟩ := ht
    simp [tempFactor, lookupQ, TEMPERATURE_FACTORS, h1, h2, h3, h4, h5, h6, h7, h8, h9]
  · intro g hg
    simp only [List.mem_cons, List.not_mem_nil, or_false, not_or] at hg
    obtain ⟨h1, h2, h3, h4, h5, h6, h7, h8, h9⟩ := hg
    simp [groupingFactor, lookupQ, GROUPING_FACTORS, h1, h2, h3, h4, h5, h6, h7, h8, h9]
  · intro c hc m hm
    simp only [List.mem_cons, List.not_mem_nil, or_false, not_or] at hm
    obtain ⟨hB1, hB2, hC⟩ := hm
    fin_cases hc <;> simp [capacityFor, lookupStr, hB1, hB2, hC]

/-- Witness for C8: temperature 27 °C, grouping 10 and method code "D"
are all absent; the factors and the B1 fallback apply. -/
theorem c8_witness :
    tempFactor 27 = 1 ∧ groupingFactor 10 = 1 ∧
    capacityFor (cableAt 0) "D" = capacityFor (cableAt 0) "B1" :=
  ⟨c8_lookup_fallbacks.1 27 (by norm_num),
   c8_lookup_fallbacks.2.1 10 (by norm_num),
   c8_lookup_fallbacks.2.2 (cableAt 0) (by norm_num [cableAt, CABLE_TABLE]) "D" (by decide)⟩

/-- C9: with non-zero irradiation (and panel power) the monthly
generation reported by `calculateSolar` equals the monthly consumption:
the 30-day, irradiation and 0.8 factors cancel exactly. -/
theorem c9_generation_eq_consumption (inp : SolarInput)
    (hirr : inp.solarIrradiation ≠ 0) (hpp : inp.panelPower ≠ 0) :
    (calculateSolar inp).monthlyGeneration = inp.monthlyConsumption := by
  show inp.monthlyConsumption / 30 / inp.solarIrradiation / 0.8 * inp.solarIrradiation * 30 * 0.8
    = inp.monthlyConsumption
  field_simp
  ring

/-- Witness for C9 at a 300 kWh / 5 kWh-irradiation / 550 Wp input. -/
theorem c9_witness :
    (calculateSolar solarWitnessInput).monthlyGeneration = solarWitnessInput.monthlyConsumption :=
  c9_generation_eq_consumption solarWitnessInput
    (by rw [show solarWitnessInput.solarIrradiation = 5 from rfl]; norm_num)
    (by rw [show solarWitnessInput.panelPower = 550 from rfl]; norm_num)

/-- Every resistance reachable from `resistanceOf` is positive (a table
resistance, or the default 1). -/
theorem resistanceOf_pos (s : ℚ) : 0 < resistanceOf s := by
  unfold resistanceOf
  cases h : CABLE_TABLE.find? fun c => decide (c.«section» = s) with
  | none => simp
  | some c =>
    have hc := List.mem_of_find?_eq_some h
    have hall : ∀ c ∈ CABLE_TABLE, (0:ℚ) < c.resistance := by
      intro c hc
      fin_cases hc <;> norm_num
    simpa using hall c hc

/-- C10: `estimateShortCircuit` has no zero-divisor guard.  At length 0
the scaled resistance is 0 and the guarded reading returns `none` (the
JS division yields a non-finite value, `Infinity` for positive voltage);
at non-zero length the function returns the voltage divided by the table
resistance of the section (default 1 Ω/km) times `length / 1000`. -/
theorem c10_shortcircuit_unguarded :
    (∀ voltage s : ℚ, scaledResistance 0 s = 0 ∧
      estimateShortCircuitChecked voltage 0 s = none) ∧
    (∀ voltage L s : ℚ, L ≠ 0 →
      estimateShortCircuit voltage L s = voltage / (resistanceOf s * (L / 1000)) ∧
      estimateShortCircuitChecked voltage L s =
        some (voltage / (resistanceOf s * (L / 1000)))) := by
  constructor
  · intro voltage s
    have h0 : scaledResistance 0 s = 0 := by simp [scaledResistance]
    exact ⟨h0, by simp [estimateShortCircuitChecked, h0]⟩
  · intro voltage L s hL
    have hne : scaledResistance L s ≠ 0 := by
      unfold scaledResistance
      exact mul_ne_zero (ne_of_gt (resistanceOf_pos s)) (by simpa using hL)
    exact ⟨rfl, by simp [estimateShortCircuitChecked, hne]; rfl⟩

/-- Witness for C10: at 127 V, 20 m and the 1.5 mm² section the
estimator returns the unguarded quotient. -/
theorem c10_witness :
    scaledResistance 0 1.5 = 0 ∧ estimateShortCircuitChecked 127 0 1.5 = none ∧
    estimateShortCircuit 127 20 1.5 = 127 / (resistanceOf 1.5 * (20 / 1000)) := by
  obtain ⟨h1, h2⟩ := c10_shortcircuit_unguarded.1 127 1.5
  obtain ⟨h3, _⟩ := c10_shortcircuit_unguarded.2 127 20 1.5 (by norm_num)
  exact ⟨h1, h2, h3⟩
